import Mathlib

/-!
Shallow embedding of the run-orchestration and tool-dispatch core of the
repository: the A2A capability directory and name resolver
(`a2a_orchestrator.py`), the per-round tool-call executors of
`a2a_orchestrator.py` and `single_agent.py`, and the polling drivers of
`mslearn_mcp_client.py` (bounded, `max_iterations = 30`) and
`a2a_orchestrator.py` (unbounded `while True`).

Effectful sub-steps (HTTP fetches, `json.loads`, remote sends, local handler
execution) are modelled by passing their outcomes in as values: `Option`
for a step whose only failure mode is a raised exception that the
surrounding code may or may not catch, `Except` for a step whose exception
is caught and stringified by the source. Python `dict` (insertion-ordered,
assignment overwrites in place) is modelled as an association list with
`pyDictSet` / `pyDictGet`.
-/

/-- Character-list version of Python `startswith`: `p` is a leading segment of `l`. -/
def char_list_starts_with : List Char → List Char → Bool
  | _, [] => true
  | [], _ :: _ => false
  | c :: cs, d :: ds => c = d && char_list_starts_with cs ds

/-- Character-list version of Python substring containment. -/
def char_list_contains : List Char → List Char → Bool
  | [], p => p.isEmpty
  | c :: cs, p => char_list_starts_with (c :: cs) p || char_list_contains cs p

/-- Python `p in t` on strings: `p` occurs as a contiguous substring of `t`. -/
def str_contains (t p : String) : Bool :=
  char_list_contains t.data p.data

/-- Python `s.lower()` (ASCII case folding, which is all the source compares). -/
def py_lower (s : String) : String :=
  ⟨s.data.map Char.toLower⟩

/-- Python `s.strip()`: drop whitespace from both ends. -/
def py_strip (s : String) : String :=
  ⟨(((s.data.dropWhile Char.isWhitespace).reverse).dropWhile Char.isWhitespace).reverse⟩

/-- Python `dict` assignment `d[k] = v`: overwrite in place if the key exists
(keeping its insertion position), otherwise append. -/
def pyDictSet {α : Type} : List (String × α) → String → α → List (String × α)
  | [], k, v => [(k, v)]
  | (k0, v0) :: rest, k, v =>
      if k0 = k then (k0, v) :: rest else (k0, v0) :: pyDictSet rest k v

/-- Python `dict` lookup `d.get(k)`. -/
def pyDictGet {α : Type} : List (String × α) → String → Option α
  | [], _ => none
  | (k0, v0) :: rest, k => if k0 = k then some v0 else pyDictGet rest k

/-- Key list of the modelled Python `dict`, in iteration order. -/
def pyDictKeys {α : Type} (d : List (String × α)) : List String :=
  d.map Prod.fst

/-- `AgentSkill` as declared by the A2A servers (`id`, `name`, `tags`; the
fields not consulted by the orchestrator are omitted). -/
structure AgentSkill where
  id : String
  name : String
  tags : List String
deriving Repr, DecidableEq

/-- `AgentCard`: the provider metadata returned by a successful fetch
(`name` plus declared skills; other fields are not consulted). -/
structure AgentCard where
  name : String
  skills : List AgentSkill
deriving Repr, DecidableEq

/-- `RemoteAgentConnection` from `a2a_orchestrator.py`: a resolved card plus
the address it was fetched from. -/
structure RemoteAgentConnection where
  card : AgentCard
  url : String
deriving Repr, DecidableEq

/-- Loop body of `discover_remote_agents` from `a2a_orchestrator.py`. The
network fetch per address is modelled by its outcome: `some card` when
`A2ACardResolver` returns a card, `none` when it raises (timeout, malformed
metadata, unreachable address) — in which case the source logs and continues.
On success the source executes
`result[card.name] = RemoteAgentConnection(card, address)`. -/
def discover_step (result : List (String × RemoteAgentConnection))
    (f : String × Option AgentCard) : List (String × RemoteAgentConnection) :=
  match f.2 with
  | some card => pyDictSet result card.name ⟨card, f.1⟩
  | none => result

/-- The whole discovery loop, starting from the empty `result` dict. -/
def discover_remote_agents (fetches : List (String × Option AgentCard)) :
    List (String × RemoteAgentConnection) :=
  fetches.foldl discover_step []

/-- Names reported by the successful fetches, in input order. -/
def success_names (fetches : List (String × Option AgentCard)) : List String :=
  fetches.filterMap fun f => f.2.map AgentCard.name

/-- Number of reachable providers: fetches whose metadata fetch succeeded. -/
def reachable_count (fetches : List (String × Option AgentCard)) : Nat :=
  (success_names fetches).length

/-- The connection produced by the LAST successful fetch reporting `name`
(used to characterise the overwrite behaviour of `discover_remote_agents`). -/
def last_success (name : String) : List (String × Option AgentCard) → Option RemoteAgentConnection
  | [] => none
  | (addr, res) :: rest =>
      match last_success name rest with
      | some c => some c
      | none =>
          match res with
          | some card => if card.name = name then some ⟨card, addr⟩ else none
          | none => none

/-- `_name_matches_skill` from `a2a_orchestrator.py`: for each skill, join
`id`, `name` and the tags with spaces, lowercase, and test whether any
keyword occurs as a substring. -/
def name_matches_skill (card : AgentCard) (keywords : List String) : Bool :=
  card.skills.any fun s =>
    let text := py_lower (String.intercalate " " [s.id, s.name, String.intercalate " " s.tags])
    keywords.any fun k => str_contains text k

/-- Nickname set mapped to the `title` skill keyword in `resolve_agent_name`. -/
def nickname_title_set : List String :=
  ["blogtitlegenerator", "title", "generate_blog_title"]

/-- Nickname set mapped to the `outline` skill keyword in `resolve_agent_name`. -/
def nickname_outline_set : List String :=
  ["outlinecreator", "outline", "generate_outline"]

/-- `resolve_agent_name` from `a2a_orchestrator.py`. `connections` is the
insertion-ordered directory; the result is the resolved name (or `none`)
plus the reason tag string the source returns. The Python truthiness test
`if requested:` is modelled as `requested = ""` being the falsy case. -/
def resolve_agent_name (requested task : String)
    (connections : List (String × RemoteAgentConnection)) : Option String × String :=
  if connections.isEmpty then
    (none, "no-remote-agents")
  else
    match (if requested = "" then none
           else connections.find? fun p => py_lower p.1 = py_lower requested) with
    | some p => (some p.1, "exact")
    | none =>
      let nick := py_lower requested
      let by_skill_title :=
        (connections.filter fun p => name_matches_skill p.2.card ["title"]).map Prod.fst
      let by_skill_outline :=
        (connections.filter fun p => name_matches_skill p.2.card ["outline"]).map Prod.fst
      if nick ∈ nickname_title_set ∧ ¬ by_skill_title.isEmpty then
        (by_skill_title.head?, "nickname:title")
      else if nick ∈ nickname_outline_set ∧ ¬ by_skill_outline.isEmpty then
        (by_skill_outline.head?, "nickname:outline")
      else
        let t := py_lower task
        if (str_contains t "title" ∨ str_contains t "headline") ∧ ¬ by_skill_title.isEmpty then
          (by_skill_title.head?, "heuristic:title")
        else if str_contains t "outline" ∧ ¬ by_skill_outline.isEmpty then
          (by_skill_outline.head?, "heuristic:outline")
        else if connections.length = 1 then
          (connections.head?.map Prod.fst, "single")
        else
          (none, "unresolved")

/-- Run status values distinguished by the drivers. -/
inductive RunStatus where
  | queued
  | in_progress
  | requires_action
  | completed
  | failed
  | cancelled
  | expired
deriving Repr, DecidableEq

/-- Rendering of a run status, as Python string-enum interpolation produces it. -/
def statusStr : RunStatus → String
  | .queued => "queued"
  | .in_progress => "in_progress"
  | .requires_action => "requires_action"
  | .completed => "completed"
  | .failed => "failed"
  | .cancelled => "cancelled"
  | .expired => "expired"

/-- A Python exception escaping the modelled code. The only raise point left
unprotected in the modelled executors is the argument-parsing statement of
`run_orchestrator` (`json.loads` / attribute access on the parsed value). -/
inductive PyExc where
  | jsonDecodeError
deriving Repr, DecidableEq

/-- One `{tool_call_id, output}` pair as appended to `outputs` and submitted
via `submit_tool_outputs`. -/
structure ToolOutput where
  tool_call_id : String
  output : String
deriving Repr, DecidableEq

/-- Payload shape `json.dumps(\x7b"error": str(e)\x7d)` used by both executors for a
caught exception (JSON escaping of the message is not modelled). -/
def json_dumps_error (msg : String) : String :=
  "\x7b\"error\": \"" ++ msg ++ "\"\x7d"

/-- Payload shape of the unknown-agent error object built by `run_orchestrator`
(`error`/`requested`/`known`/`hint` fields; rendered abstractly). -/
def unknown_agent_json (requested : String) (known : List String) : String :=
  "\x7b\"error\": \"Unknown agent\", \"requested\": \"" ++ requested ++ "\", \"known\": " ++
    String.intercalate ", " known ++ "\x7d"

/-- Decidable equality for `Except`, needed to evaluate concrete tool-call
records in witnesses. -/
instance exceptDecidableEq {ε α : Type} [DecidableEq ε] [DecidableEq α] :
    DecidableEq (Except ε α) := fun x y =>
  match x, y with
  | .ok a, .ok b =>
      if h : a = b then isTrue (by rw [h])
      else isFalse (by intro he; cases he; exact h rfl)
  | .ok _, .error _ => isFalse (by intro he; cases he)
  | .error _, .ok _ => isFalse (by intro he; cases he)
  | .error e, .error f =>
      if h : e = f then isTrue (by rw [h])
      else isFalse (by intro he; cases he; exact h rfl)

/-- Parsed `delegate_to_agent` arguments: the dict fields read via
`args.get("agent_name")` and `args.get("task", "")`, each possibly absent. -/
structure DelegateArgs where
  agent_name : Option String
  task : Option String
deriving Repr, DecidableEq

/-- One tool call of a `requires_action` round in `run_orchestrator`, with
the outcomes of its effectful sub-steps supplied as data: `argsParse` is the
result of the unprotected `json.loads(tc.function.arguments or "\x7b\x7d")`
statement (`none` = it raises), and `sendResult` is the outcome of
`await send_to_remote(...)` (`Except.ok` carries `json.dumps(result_dict)`;
`Except.error` carries `str(e)` of the raised exception, which the source
catches). -/
structure OrchToolCall where
  id : String
  fname : String
  argsParse : Option DelegateArgs
  sendResult : Except String String
deriving Repr, DecidableEq

/-- Handling of one tool call inside the `requires_action` branch of
`run_orchestrator` (`a2a_orchestrator.py`). An `Except.error` result models a
Python exception escaping to the polling loop (and out of `run_orchestrator`):
this happens exactly when `fname = "delegate_to_agent"` and `json.loads`
raises, because that statement is outside any `try`. All later failure
modes are caught and turned into output payloads. -/
def orchHandleCall (connections : List (String × RemoteAgentConnection))
    (tc : OrchToolCall) : Except PyExc ToolOutput :=
  if tc.fname = "delegate_to_agent" then
    match tc.argsParse with
    | none => .error .jsonDecodeError
    | some args =>
      let requested := py_strip (args.agent_name.getD "")
      let task := args.task.getD ""
      match (resolve_agent_name requested task connections).1 with
      | none => .ok ⟨tc.id, unknown_agent_json requested (pyDictKeys connections)⟩
      | some resolved =>
        if resolved = "" then
          .ok ⟨tc.id, unknown_agent_json requested (pyDictKeys connections)⟩
        else
          match tc.sendResult with
          | .ok dumped => .ok ⟨tc.id, dumped⟩
          | .error e => .ok ⟨tc.id, json_dumps_error e⟩
  else
    .ok ⟨tc.id, json_dumps_error "Unknown function"⟩

/-- The `for tc in tool_calls` loop of `run_orchestrator`: builds the batch
submitted by `submit_tool_outputs`; an escaping exception aborts the round
(no batch is submitted). -/
def orchRound (connections : List (String × RemoteAgentConnection)) :
    List OrchToolCall → Except PyExc (List ToolOutput)
  | [] => .ok []
  | tc :: rest =>
      match orchHandleCall connections tc with
      | .error e => .error e
      | .ok o =>
          match orchRound connections rest with
          | .error e => .error e
          | .ok os => .ok (o :: os)

/-- One tool call of a `requires_action` round in `run_agent_with_tools`
(`single_agent.py`): `argsParse` is the outcome of `json.loads(args_str)`
(`none` = `json.JSONDecodeError`, which the source catches, substituting
`\x7b\x7d`); `implResult` is the outcome of `impl(**args)` (`Except.error`
carries `str(e)`, which the source catches). -/
structure SAToolCall where
  id : String
  fname : String
  argsParse : Option DelegateArgs
  implResult : Except String String
deriving Repr, DecidableEq

/-- Handling of one tool call in `run_agent_with_tools` (`single_agent.py`).
Every raise point is inside a `try`: a JSON decode failure falls back to
empty arguments, a handler exception becomes `json.dumps(\x7b"error": str(e)\x7d)`,
and an unregistered function name becomes a structured error output — so the
result is always `Except.ok`. -/
def saHandleCall (tool_map : List String) (tc : SAToolCall) :
    Except PyExc ToolOutput :=
  let _args := tc.argsParse.getD ⟨none, none⟩
  if tc.fname ∈ tool_map then
    match tc.implResult with
    | .ok r => .ok ⟨tc.id, r⟩
    | .error e => .ok ⟨tc.id, json_dumps_error e⟩
  else
    .ok ⟨tc.id, json_dumps_error "function not implemented"⟩

/-- The `for tc in tool_calls` loop of `run_agent_with_tools`, in the same
exception monad as `orchRound` (it never actually raises). -/
def saRound (tool_map : List String) :
    List SAToolCall → Except PyExc (List ToolOutput)
  | [] => .ok []
  | tc :: rest =>
      match saHandleCall tool_map tc with
      | .error e => .error e
      | .ok o =>
          match saRound tool_map rest with
          | .error e => .error e
          | .ok os => .ok (o :: os)

/-- One message as seen by `client.messages.list`: its role and the
`text.value` of each of its `text_messages`. -/
structure Msg where
  role : String
  text_messages : List String
deriving Repr, DecidableEq

/-- Environment of one `_handle_tool_calls` invocation: `status i` is the
status returned by the `(i+1)`-th `client.runs.get` call, and `msgs` the
snapshot returned by `client.messages.list`. -/
structure MCPRunEnv where
  status : Nat → RunStatus
  msgs : List Msg

/-- The filter `[msg for msg in messages if msg.role == "assistant" and msg.text_messages]`. -/
def assistant_messages (msgs : List Msg) : List Msg :=
  msgs.filter fun m => m.role == "assistant" && !m.text_messages.isEmpty

/-- `assistant_messages[-1].text_messages[-1].text.value`, when it exists. -/
def final_response (msgs : List Msg) : Option String :=
  match (assistant_messages msgs).getLast? with
  | some m => m.text_messages.getLast?
  | none => none

/-- `max_iterations = 30` in `MSLearnMCPClient._handle_tool_calls`. -/
def max_iterations : Nat := 30

/-- The Korean budget-exhausted message returned by `_handle_tool_calls`. -/
def exhausted_message (st : RunStatus) : String :=
  "최대 반복 횟수(" ++ toString max_iterations ++ ")를 초과했습니다. 마지막 상태: " ++ statusStr st

/-- The Korean failure message returned for a terminal non-completed status. -/
def failed_message (st : RunStatus) : String :=
  "실행이 실패했습니다. 상태: " ++ statusStr st

/-- The Korean no-response message for a completed run without assistant text. -/
def no_response_message : String := "응답을 생성할 수 없습니다."

/-- The `while iteration < max_iterations` loop of
`MSLearnMCPClient._handle_tool_calls`, with the loop guard carried as fuel
(`fuel = max_iterations - iteration`; `iteration` is the value of the Python
counter, i.e. the number of completed loop bodies, and doubles as the index
of the next `runs.get` observation). Tool execution in the
`requires_action` branch (`_execute_mcp_tool`) is fully wrapped in
`try/except` in the source and cannot abort the loop, so it leaves no trace
here. Returns the response string together with the final value of the
iteration counter. -/
def handle_tool_calls_go (env : MCPRunEnv) : Nat → Nat → String × Nat
  | 0, iteration =>
      let final_status := env.status iteration
      if final_status = RunStatus.completed then
        match final_response env.msgs with
        | some s => (s, iteration)
        | none => (exhausted_message final_status, iteration)
      else
        (exhausted_message final_status, iteration)
  | fuel + 1, iteration =>
      match env.status iteration with
      | RunStatus.queued => handle_tool_calls_go env fuel (iteration + 1)
      | RunStatus.in_progress => handle_tool_calls_go env fuel (iteration + 1)
      | RunStatus.requires_action => handle_tool_calls_go env fuel (iteration + 1)
      | RunStatus.completed =>
          (match final_response env.msgs with
           | some s => s
           | none => no_response_message,
           iteration + 1)
      | st => (failed_message st, iteration + 1)

/-- `MSLearnMCPClient._handle_tool_calls`: run the loop from iteration 0 with
the configured budget. -/
def handle_tool_calls (env : MCPRunEnv) : String × Nat :=
  handle_tool_calls_go env max_iterations 0

/-- The `while True` polling loop of `run_orchestrator`
(`a2a_orchestrator.py`), observed for `fuel` polls starting at observation
index `i`: `queued`/`in_progress` and `requires_action` both `continue`
(the latter after handling and submitting the round), any other status hits
`break` and is returned. `none` means the loop is still running after
`fuel` polls — the source has no iteration budget. -/
def run_orchestrator_loop (status : Nat → RunStatus) : Nat → Nat → Option RunStatus
  | 0, _ => none
  | fuel + 1, i =>
      match status i with
      | RunStatus.queued => run_orchestrator_loop status fuel (i + 1)
      | RunStatus.in_progress => run_orchestrator_loop status fuel (i + 1)
      | RunStatus.requires_action => run_orchestrator_loop status fuel (i + 1)
      | st => some st

/-- The skill declared by `a2a_servers/title_agent/server.py`. -/
def title_agent_skill : AgentSkill :=
  ⟨"generate_blog_title", "Generate Blog Title", ["title"]⟩

/-- The agent card declared by `a2a_servers/title_agent/server.py`. -/
def title_agent_card : AgentCard :=
  ⟨"AI Foundry Title Agent", [title_agent_skill]⟩

/-- The skill declared by `a2a_servers/outline_agent/server.py`. -/
def outline_agent_skill : AgentSkill :=
  ⟨"generate_outline", "Generate Outline", ["outline"]⟩

/-- The agent card declared by `a2a_servers/outline_agent/server.py`. -/
def outline_agent_card : AgentCard :=
  ⟨"AI Foundry Outline Agent", [outline_agent_skill]⟩

/-- Directory obtained by discovering the two sample servers of the repository. -/
def sample_connections : List (String × RemoteAgentConnection) :=
  [("AI Foundry Title Agent", ⟨title_agent_card, "http://localhost:8001/"⟩),
   ("AI Foundry Outline Agent", ⟨outline_agent_card, "http://localhost:8002/"⟩)]

/-! Helper lemmas about the Python-dict model and the discovery fold. -/

theorem pyDictGet_pyDictSet {α : Type} (d : List (String × α)) (k k' : String) (v : α) :
    pyDictGet (pyDictSet d k v) k' = if k = k' then some v else pyDictGet d k' := by
  induction d with
  | nil =>
      by_cases h : k = k' <;> simp [pyDictSet, pyDictGet, h]
  | cons hd tl ih =>
      obtain ⟨k0, v0⟩ := hd
      by_cases h0 : k0 = k
      · subst h0
        by_cases h1 : k0 = k' <;> simp [pyDictSet, pyDictGet, h1]
      · by_cases h1 : k0 = k'
        · subst h1
          have : ¬ k = k0 := fun h => h0 h.symm
          simp [pyDictSet, pyDictGet, h0, this]
        · simp [pyDictSet, pyDictGet, h0, h1, ih]

theorem mem_pyDictKeys_pyDictSet {α : Type} (d : List (String × α)) (k a : String) (v : α) :
    a ∈ pyDictKeys (pyDictSet d k v) ↔ a ∈ pyDictKeys d ∨ a = k := by
  induction d with
  | nil => simp [pyDictSet, pyDictKeys]
  | cons hd tl ih =>
      obtain ⟨k0, v0⟩ := hd
      by_cases h0 : k0 = k
      · subst h0
        have hset : pyDictSet ((k0, v0) :: tl) k0 v = (k0, v) :: tl := by
          simp [pyDictSet]
        rw [hset]
        simp only [pyDictKeys, List.map_cons, List.mem_cons]
        tauto
      · simp only [pyDictSet, if_neg h0, pyDictKeys, List.map_cons, List.mem_cons] at ih ⊢
        rw [ih]
        tauto

theorem pyDictSet_length_of_not_mem {α : Type} (d : List (String × α)) (k : String) (v : α)
    (h : k ∉ pyDictKeys d) : (pyDictSet d k v).length = d.length + 1 := by
  induction d with
  | nil => simp [pyDictSet]
  | cons hd tl ih =>
      obtain ⟨k0, v0⟩ := hd
      simp only [pyDictKeys, List.map_cons, List.mem_cons] at h
      push_neg at h
      have h0 : k0 ≠ k := fun he => h.1 he.symm
      simp only [pyDictSet, if_neg h0, List.length_cons]
      rw [ih (by simpa [pyDictKeys] using h.2)]

theorem discover_foldl_get (fetches : List (String × Option AgentCard))
    (acc : List (String × RemoteAgentConnection)) (name : String) :
    pyDictGet (fetches.foldl discover_step acc) name =
      match last_success name fetches with
      | some c => some c
      | none => pyDictGet acc name := by
  induction fetches generalizing acc with
  | nil => simp [last_success]
  | cons f rest ih =>
      obtain ⟨addr, res⟩ := f
      rw [List.foldl_cons, ih]
      cases hrest : last_success name rest with
      | some c => simp [last_success, hrest]
      | none =>
          cases res with
          | none => simp [last_success, hrest, discover_step]
          | some card =>
              simp only [last_success, hrest, discover_step]
              rw [pyDictGet_pyDictSet]
              by_cases hc : card.name = name <;> simp [hc]

theorem discover_foldl_skip_failures (fetches : List (String × Option AgentCard))
    (acc : List (String × RemoteAgentConnection)) :
    fetches.foldl discover_step acc =
      (fetches.filter fun f => f.2.isSome).foldl discover_step acc := by
  induction fetches generalizing acc with
  | nil => rfl
  | cons f rest ih =>
      obtain ⟨addr, res⟩ := f
      cases res with
      | none => simpa [List.filter, discover_step] using ih acc
      | some card => simpa [List.filter, discover_step] using ih (pyDictSet acc card.name ⟨card, addr⟩)

theorem last_success_isSome_of_mem (fetches : List (String × Option AgentCard))
    (addr : String) (card : AgentCard) (h : (addr, some card) ∈ fetches) :
    (last_success card.name fetches).isSome = true := by
  induction fetches with
  | nil => cases h
  | cons f rest ih =>
      obtain ⟨a, r⟩ := f
      rcases List.mem_cons.mp h with hhd | htl
      · obtain ⟨h1, h2⟩ := Prod.mk.injEq .. ▸ hhd
        cases hrest : last_success card.name rest with
        | some c => simp [last_success, hrest]
        | none =>
            subst h1
            simp [last_success, hrest, ← h2]
      · have := ih htl
        cases hrest : last_success card.name rest with
        | some c => simp [last_success, hrest]
        | none => rw [hrest] at this; simp at this

theorem discover_foldl_length (fetches : List (String × Option AgentCard))
    (acc : List (String × RemoteAgentConnection))
    (hfresh : ∀ n ∈ success_names fetches, n ∉ pyDictKeys acc)
    (hnodup : (success_names fetches).Nodup) :
    (fetches.foldl discover_step acc).length = acc.length + (success_names fetches).length := by
  induction fetches generalizing acc with
  | nil => simp [success_names]
  | cons f rest ih =>
      obtain ⟨addr, res⟩ := f
      cases res with
      | none =>
          simp only [success_names, List.filterMap_cons] at hfresh hnodup ⊢
          simpa [discover_step] using ih acc hfresh hnodup
      | some card =>
          simp only [success_names, List.filterMap_cons, Option.map_some'] at hfresh hnodup ⊢
          rw [List.foldl_cons]
          have hcard : card.name ∉ pyDictKeys acc := hfresh card.name (List.mem_cons_self ..)
          have hrest_nodup : (success_names rest).Nodup := (List.nodup_cons.mp hnodup).2
          have hcard_rest : card.name ∉ success_names rest := (List.nodup_cons.mp hnodup).1
          have hfresh' : ∀ n ∈ success_names rest,
              n ∉ pyDictKeys (pyDictSet acc card.name ⟨card, addr⟩) := by
            intro n hn hmem
            rcases (mem_pyDictKeys_pyDictSet acc card.name n ⟨card, addr⟩).mp hmem with hin | heq
            · exact hfresh n (List.mem_cons_of_mem _ hn) hin
            · exact hcard_rest (heq ▸ hn)
          have := ih (pyDictSet acc card.name ⟨card, addr⟩) hfresh' hrest_nodup
          rw [show discover_step acc (addr, some card) = pyDictSet acc card.name ⟨card, addr⟩ from rfl]
          rw [this, pyDictSet_length_of_not_mem acc card.name ⟨card, addr⟩ hcard]
          simp only [success_names, List.filterMap_cons, Option.map_some', List.length_cons] at this ⊢
          omega

/-! Helper lemmas about the two polling drivers. -/

theorem handle_go_const_in_progress (env : MCPRunEnv) :
    ∀ fuel iteration, (∀ i, i < iteration + fuel → env.status i = RunStatus.in_progress) →
      handle_tool_calls_go env fuel iteration =
        ((if env.status (iteration + fuel) = RunStatus.completed
          then (final_response env.msgs).getD (exhausted_message (env.status (iteration + fuel)))
          else exhausted_message (env.status (iteration + fuel))), iteration + fuel) := by
  intro fuel
  induction fuel with
  | zero =>
      intro iteration _
      simp only [handle_tool_calls_go, Nat.add_zero]
      by_cases hc : env.status iteration = RunStatus.completed
      · cases hr : final_response env.msgs <;> simp [hc, hr, Option.getD]
      · simp [hc]
  | succ fuel ih =>
      intro iteration h
      have h0 : env.status iteration = RunStatus.in_progress := h iteration (by omega)
      have step : handle_tool_calls_go env (fuel + 1) iteration =
          handle_tool_calls_go env fuel (iteration + 1) := by
        rw [handle_tool_calls_go, h0]
      rw [step]
      have harith : iteration + 1 + fuel = iteration + (fuel + 1) := by omega
      have := ih (iteration + 1) (fun i hi => h i (by omega))
      rw [harith] at this
      exact this

theorem run_orchestrator_loop_const_in_progress :
    ∀ fuel i, run_orchestrator_loop (fun _ => RunStatus.in_progress) fuel i = none := by
  intro fuel
  induction fuel with
  | zero => intro i; rfl
  | succ fuel ih =>
      intro i
      rw [run_orchestrator_loop]
      exact ih (i + 1)


/-! Helper lemmas about the per-call executors. -/

theorem orchHandleCall_shape (connections : List (String × RemoteAgentConnection))
    (tc : OrchToolCall) :
    (tc.fname = "delegate_to_agent" ∧ tc.argsParse = none ∧
      orchHandleCall connections tc = Except.error PyExc.jsonDecodeError) ∨
    (∃ s, orchHandleCall connections tc = Except.ok ⟨tc.id, s⟩) := by
  by_cases hf : tc.fname = "delegate_to_agent"
  · cases hap : tc.argsParse with
    | none => exact Or.inl ⟨hf, rfl, by simp [orchHandleCall, hf, hap]⟩
    | some args =>
        right
        cases hres : (resolve_agent_name (py_strip (args.agent_name.getD ""))
            (args.task.getD "") connections).1 with
        | none =>
            exact ⟨unknown_agent_json (py_strip (args.agent_name.getD "")) (pyDictKeys connections),
              by simp [orchHandleCall, hf, hap, hres]⟩
        | some r =>
            by_cases hr : r = ""
            · exact ⟨unknown_agent_json (py_strip (args.agent_name.getD "")) (pyDictKeys connections),
                by simp [orchHandleCall, hf, hap, hres, hr]⟩
            · cases hsend : tc.sendResult with
              | ok d => exact ⟨d, by simp [orchHandleCall, hf, hap, hres, hr, hsend]⟩
              | error e =>
                  exact ⟨json_dumps_error e, by simp [orchHandleCall, hf, hap, hres, hr, hsend]⟩
  · exact Or.inr ⟨json_dumps_error "Unknown function", by simp [orchHandleCall, hf]⟩

theorem orchHandleCall_ok_id (connections : List (String × RemoteAgentConnection))
    (tc : OrchToolCall) (out : ToolOutput)
    (h : orchHandleCall connections tc = Except.ok out) : out.tool_call_id = tc.id := by
  rcases orchHandleCall_shape connections tc with ⟨_, _, herr⟩ | ⟨s, hok⟩
  · rw [herr] at h; cases h
  · rw [hok] at h
    cases h
    rfl

theorem saHandleCall_ok (tool_map : List String) (tc : SAToolCall) :
    ∃ s, saHandleCall tool_map tc = Except.ok ⟨tc.id, s⟩ := by
  by_cases h : tc.fname ∈ tool_map
  · cases hi : tc.implResult with
    | ok r => exact ⟨r, by simp [saHandleCall, h, hi]⟩
    | error e => exact ⟨json_dumps_error e, by simp [saHandleCall, h, hi]⟩
  · exact ⟨json_dumps_error "function not implemented", by simp [saHandleCall, h]⟩

theorem saRound_ok_ids (tool_map : List String) :
    ∀ (tcs : List SAToolCall) (outs : List ToolOutput),
      saRound tool_map tcs = Except.ok outs →
      outs.map ToolOutput.tool_call_id = tcs.map SAToolCall.id := by
  intro tcs
  induction tcs with
  | nil =>
      intro outs h
      simp only [saRound] at h
      cases h
      rfl
  | cons tc rest ih =>
      intro outs h
      obtain ⟨s, hok⟩ := saHandleCall_ok tool_map tc
      simp only [saRound, hok] at h
      cases hr : saRound tool_map rest with
      | error e => rw [hr] at h; cases h
      | ok os =>
          rw [hr] at h
          cases h
          simp only [List.map_cons]
          rw [ih os hr]

theorem saRound_always_ok (tool_map : List String) :
    ∀ tcs : List SAToolCall, ∃ outs, saRound tool_map tcs = Except.ok outs := by
  intro tcs
  induction tcs with
  | nil => exact ⟨[], rfl⟩
  | cons tc rest ih =>
      obtain ⟨s, hok⟩ := saHandleCall_ok tool_map tc
      obtain ⟨outs, hr⟩ := ih
      exact ⟨⟨tc.id, s⟩ :: outs, by simp [saRound, hok, hr]⟩

theorem orchRound_ok_ids (connections : List (String × RemoteAgentConnection)) :
    ∀ (tcs : List OrchToolCall) (outs : List ToolOutput),
      orchRound connections tcs = Except.ok outs →
      outs.map ToolOutput.tool_call_id = tcs.map OrchToolCall.id := by
  intro tcs
  induction tcs with
  | nil =>
      intro outs h
      simp only [orchRound] at h
      cases h
      rfl
  | cons tc rest ih =>
      intro outs h
      simp only [orchRound] at h
      cases hc : orchHandleCall connections tc with
      | error e => rw [hc] at h; cases h
      | ok o =>
          rw [hc] at h
          cases hr : orchRound connections rest with
          | error e => rw [hr] at h; cases h
          | ok os =>
              rw [hr] at h
              cases h
              simp only [List.map_cons]
              rw [ih os hr, orchHandleCall_ok_id connections tc o hc]

/-- C1: in every `requires_action` round, the batch submitted back to the run
contains exactly one output per reported tool call, with the output ids
listing exactly the round's call ids in order (hence, as sets: no omissions,
no duplicates beyond those among the round's own ids, and no foreign ids).
Stated for both drivers that build such batches: `run_agent_with_tools`
(`single_agent.py`, `saRound`) and `run_orchestrator` (`a2a_orchestrator.py`,
`orchRound`); the hypothesis `= Except.ok outs` restricts to rounds in which
the batch is actually built and submitted (an escaping argument-parse
exception, see the C3 analysis, submits nothing at all). -/
theorem requires_action_round_ids
    (tool_map : List String) (sa_calls : List SAToolCall)
    (connections : List (String × RemoteAgentConnection)) (orch_calls : List OrchToolCall) :
    (∀ outs, saRound tool_map sa_calls = Except.ok outs →
        outs.map ToolOutput.tool_call_id = sa_calls.map SAToolCall.id) ∧
    (∀ outs, orchRound connections orch_calls = Except.ok outs →
        outs.map ToolOutput.tool_call_id = orch_calls.map OrchToolCall.id) :=
  ⟨fun outs h => saRound_ok_ids tool_map sa_calls outs h,
   fun outs h => orchRound_ok_ids connections orch_calls outs h⟩

/-- Witness for C1: both round builders evaluated on concrete two-call rounds
(one failing handler plus one unregistered function; one delegated call plus
one unknown function) yield batches whose ids are exactly the round's ids. -/
theorem requires_action_round_ids_witness :
    ([⟨"c1", json_dumps_error "boom"⟩,
      ⟨"c2", json_dumps_error "function not implemented"⟩] : List ToolOutput).map
        ToolOutput.tool_call_id = ["c1", "c2"] ∧
    ([⟨"o1", "r"⟩, ⟨"o2", json_dumps_error "Unknown function"⟩] : List ToolOutput).map
        ToolOutput.tool_call_id = ["o1", "o2"] := by
  have h := requires_action_round_ids ["geocode_city_country"]
      [⟨"c1", "geocode_city_country", none, Except.error "boom"⟩,
       ⟨"c2", "missing", some ⟨none, none⟩, Except.ok "r"⟩]
      sample_connections
      [⟨"o1", "delegate_to_agent", some ⟨some "blogtitlegenerator", some "t"⟩, Except.ok "r"⟩,
       ⟨"o2", "other_fn", some ⟨none, none⟩, Except.error "boom"⟩]
  exact ⟨h.1 _ (by decide), h.2 _ (by decide)⟩

/-- C2 counterexample: the Run Driver of `run_orchestrator`
(`a2a_orchestrator.py`) has no iteration budget — fed a run that perpetually
reports `in_progress`, it is still polling after 1000 rounds (the only
configured budget in the repository is `max_iterations = 30`, and that lives
in `mslearn_mcp_client.py` alone), so the claim that every run driver stops
after a finite configured number of rounds and reports `exhausted` is false
for this driver. -/
theorem orchestrator_polling_loop_has_no_budget :
    run_orchestrator_loop (fun _ => RunStatus.in_progress) 1000 0 = none :=
  run_orchestrator_loop_const_in_progress 1000 0

/-- C2 amended: the MCP client driver (`MSLearnMCPClient._handle_tool_calls`)
enforces `max_iterations = 30`: on a run that reports `in_progress` for all
30 in-loop polls it stops exactly at the cap, re-reads the status once more,
reports the Korean budget-exhausted message carrying that last observed
status — except that if the last status is `completed` it first tries to
return the final assistant response. The `run_orchestrator` driver, by
contrast, has no budget at all and never stops while the run keeps reporting
`in_progress`. -/
theorem driver_iteration_budget_amended :
    (∀ env : MCPRunEnv,
      (∀ i, i < max_iterations → env.status i = RunStatus.in_progress) →
      handle_tool_calls env =
        ((if env.status max_iterations = RunStatus.completed
          then (final_response env.msgs).getD (exhausted_message (env.status max_iterations))
          else exhausted_message (env.status max_iterations)), max_iterations)) ∧
    (∀ fuel, run_orchestrator_loop (fun _ => RunStatus.in_progress) fuel 0 = none) := by
  constructor
  · intro env h
    have := handle_go_const_in_progress env max_iterations 0 (by simpa using h)
    simpa [handle_tool_calls] using this
  · intro fuel
    exact run_orchestrator_loop_const_in_progress fuel 0

/-- Witness for the amended C2: on the concrete always-`in_progress` run the
MCP driver stops at iteration 30 with the exhausted message, and the
orchestrator driver is still running after 31 polls. -/
theorem driver_iteration_budget_amended_witness :
    handle_tool_calls ⟨fun _ => RunStatus.in_progress, []⟩ =
      (exhausted_message RunStatus.in_progress, max_iterations) ∧
    run_orchestrator_loop (fun _ => RunStatus.in_progress) 31 0 = none := by
  constructor
  · have h := driver_iteration_budget_amended.1 ⟨fun _ => RunStatus.in_progress, []⟩
      (fun i _ => rfl)
    simpa using h
  · exact driver_iteration_budget_amended.2 31

/-- C3 counterexample: in `run_orchestrator` the statement
`args = json.loads(tc.function.arguments or "{}")` sits outside every `try`,
so on a `delegate_to_agent` call whose arguments are malformed JSON
(`argsParse = none`) the executor does not produce an InvocationOutput — the
exception escapes to the Run Driver (modelled as `Except.error`). -/
theorem arg_parse_exception_escapes_executor :
    orchHandleCall sample_connections
        ⟨"call_1", "delegate_to_agent", none, Except.ok "ignored"⟩ =
      Except.error PyExc.jsonDecodeError := rfl

/-- C3 amended: the Invocation Executor of `single_agent.py` always produces
an InvocationOutput carrying the call's id (JSON decode errors fall back to
empty arguments, handler exceptions become a structured
`json.dumps(\x7b"error": str(e)\x7d)` payload); the executor of
`a2a_orchestrator.py` does so for every call whose argument parsing
succeeds (transport and handler failures are caught and converted), but an
exception raised while parsing the arguments of a `delegate_to_agent` call
escapes to the Run Driver. -/
theorem invocation_executor_amended :
    (∀ (tool_map : List String) (tc : SAToolCall),
        ∃ out, saHandleCall tool_map tc = Except.ok out ∧ out.tool_call_id = tc.id) ∧
    (∀ (tool_map : List String) (tc : SAToolCall) (e : String),
        tc.fname ∈ tool_map → tc.implResult = Except.error e →
        saHandleCall tool_map tc = Except.ok ⟨tc.id, json_dumps_error e⟩) ∧
    (∀ (connections : List (String × RemoteAgentConnection)) (tc : OrchToolCall),
        (tc.fname = "delegate_to_agent" → tc.argsParse.isSome) →
        ∃ out, orchHandleCall connections tc = Except.ok out ∧ out.tool_call_id = tc.id) := by
  refine ⟨?_, ?_, ?_⟩
  · intro tool_map tc
    obtain ⟨s, h⟩ := saHandleCall_ok tool_map tc
    exact ⟨⟨tc.id, s⟩, h, rfl⟩
  · intro tool_map tc e hmem himpl
    simp [saHandleCall, hmem, himpl]
  · intro connections tc hparse
    rcases orchHandleCall_shape connections tc with ⟨hf, hap, _⟩ | ⟨s, hok⟩
    · have := hparse hf
      rw [hap] at this
      simp at this
    · exact ⟨⟨tc.id, s⟩, hok, rfl⟩

/-- Witness for the amended C3: a throwing local handler yields an error
payload output (never an exception), and a delegated call whose remote send
fails yields an output too. -/
theorem invocation_executor_amended_witness :
    (∃ out, saHandleCall ["get_weather_summary"]
        ⟨"w1", "get_weather_summary", some ⟨none, none⟩, Except.error "boom"⟩ =
        Except.ok out ∧ out.tool_call_id = "w1") ∧
    saHandleCall ["get_weather_summary"]
        ⟨"w1", "get_weather_summary", some ⟨none, none⟩, Except.error "boom"⟩ =
      Except.ok ⟨"w1", json_dumps_error "boom"⟩ ∧
    (∃ out, orchHandleCall sample_connections
        ⟨"w2", "delegate_to_agent", some ⟨some "title", some "make a title"⟩,
          Except.error "connection refused"⟩ = Except.ok out ∧ out.tool_call_id = "w2") :=
  ⟨invocation_executor_amended.1 ["get_weather_summary"]
      ⟨"w1", "get_weather_summary", some ⟨none, none⟩, Except.error "boom"⟩,
   invocation_executor_amended.2.1 ["get_weather_summary"]
      ⟨"w1", "get_weather_summary", some ⟨none, none⟩, Except.error "boom"⟩ "boom"
      (by decide) rfl,
   invocation_executor_amended.2.2 sample_connections
      ⟨"w2", "delegate_to_agent", some ⟨some "title", some "make a title"⟩,
        Except.error "connection refused"⟩ (fun _ => rfl)⟩

/-- Shared characterisation of discovery: looking a name up in the built
directory returns the connection of the LAST successful fetch reporting that
name (Python dict assignment overwrites). -/
theorem pyDictGet_discover_eq_last_success
    (fetches : List (String × Option AgentCard)) (name : String) :
    pyDictGet (discover_remote_agents fetches) name = last_success name fetches := by
  have h := discover_foldl_get fetches [] name
  cases hl : last_success name fetches with
  | none => rw [hl] at h; simpa [discover_remote_agents, pyDictGet] using h
  | some c => rw [hl] at h; simpa [discover_remote_agents] using h

/-- C4 counterexample: two addresses whose fetches report the same name
`"N"`: after `discover_remote_agents`, the stored descriptor is the one from
the LATER address `"addr2"` (with the later card), not the earlier one —
`result[card.name] = ...` overwrites, so "keep the first" is false. -/
theorem discovery_duplicate_name_overwrites_cex :
    discover_remote_agents
        [("addr1", some ⟨"N", []⟩), ("addr2", some ⟨"N", [⟨"a", "b", []⟩]⟩)] =
      [("N", ⟨⟨"N", [⟨"a", "b", []⟩]⟩, "addr2"⟩)] ∧
    (⟨⟨"N", []⟩, "addr1"⟩ : RemoteAgentConnection) ≠ ⟨⟨"N", [⟨"a", "b", []⟩]⟩, "addr2"⟩ :=
  ⟨rfl, by decide⟩

/-- C4 amended: when two addresses yield provider metadata with the same
name, the directory keeps the descriptor obtained from the LATEST such
address — a later duplicate overwrites the already-resolved entry (the name
lookup always returns the last successful fetch for that name). -/
theorem discovery_keeps_latest_duplicate
    (fetches : List (String × Option AgentCard)) (name : String) :
    pyDictGet (discover_remote_agents fetches) name = last_success name fetches :=
  pyDictGet_discover_eq_last_success fetches name

/-- C5 counterexample: against an empty directory the resolver does return no
name, but the reason tag it returns is the string `"no-remote-agents"`, not
`"no-providers"` as the claim states. -/
theorem empty_directory_reason_tag_cex :
    resolve_agent_name "BlogTitleGenerator" "write a title" [] =
      (none, "no-remote-agents") ∧
    ("no-remote-agents" : String) ≠ "no-providers" :=
  ⟨rfl, by decide⟩

/-- C5 amended: for every requested name and every task text, the resolver on
an empty directory returns no resolved name with reason tag
`"no-remote-agents"`. -/
theorem empty_directory_no_remote_agents (requested task : String) :
    resolve_agent_name requested task [] = (none, "no-remote-agents") := rfl

/-- C6 counterexample: two reachable addresses reporting the same provider
name produce a directory of size 1, not size 2 — "directory size equals the
number of reachable providers" fails when reachable providers share a name. -/
theorem discovery_size_duplicate_names_cex :
    reachable_count [("addr1", (some ⟨"N", []⟩ : Option AgentCard)),
        ("addr2", some ⟨"N", []⟩)] = 2 ∧
    (discover_remote_agents [("addr1", some ⟨"N", []⟩),
        ("addr2", some ⟨"N", []⟩)]).length = 1 :=
  ⟨rfl, rfl⟩

/-- C6 amended: a metadata-fetch failure never aborts discovery of the other
addresses — the resulting directory is exactly the one obtained from the
successful fetches alone, it contains an entry under the name of every
successful fetch, and its size equals the number of reachable providers
PROVIDED the reachable providers report pairwise-distinct names. -/
theorem discovery_failure_tolerance_amended (fetches : List (String × Option AgentCard)) :
    (discover_remote_agents fetches =
      discover_remote_agents (fetches.filter fun f => f.2.isSome)) ∧
    (∀ addr card, (addr, some card) ∈ fetches →
      (pyDictGet (discover_remote_agents fetches) card.name).isSome = true) ∧
    ((success_names fetches).Nodup →
      (discover_remote_agents fetches).length = reachable_count fetches) := by
  refine ⟨discover_foldl_skip_failures fetches [], ?_, ?_⟩
  · intro addr card hmem
    rw [pyDictGet_discover_eq_last_success]
    exact last_success_isSome_of_mem fetches addr card hmem
  · intro hnodup
    have := discover_foldl_length fetches [] (by simp [pyDictKeys]) hnodup
    simpa [discover_remote_agents, reachable_count] using this

/-- Witness for the amended C6: discovery over the two repository servers
plus one unreachable address yields the same directory as over the two
reachable ones alone, with both entries present, and size 2 = reachable
count. -/
theorem discovery_failure_tolerance_amended_witness :
    (discover_remote_agents
        [("http://localhost:8001/", some title_agent_card),
         ("http://bad/", (none : Option AgentCard)),
         ("http://localhost:8002/", some outline_agent_card)] =
      discover_remote_agents
        (([("http://localhost:8001/", some title_agent_card),
           ("http://bad/", (none : Option AgentCard)),
           ("http://localhost:8002/", some outline_agent_card)]).filter
          fun f => f.2.isSome)) ∧
    (pyDictGet (discover_remote_agents
        [("http://localhost:8001/", some title_agent_card),
         ("http://bad/", (none : Option AgentCard)),
         ("http://localhost:8002/", some outline_agent_card)])
      title_agent_card.name).isSome = true ∧
    (discover_remote_agents
        [("http://localhost:8001/", some title_agent_card),
         ("http://bad/", (none : Option AgentCard)),
         ("http://localhost:8002/", some outline_agent_card)]).length =
      reachable_count
        [("http://localhost:8001/", some title_agent_card),
         ("http://bad/", (none : Option AgentCard)),
         ("http://localhost:8002/", some outline_agent_card)] := by
  have h := discovery_failure_tolerance_amended
      [("http://localhost:8001/", some title_agent_card),
       ("http://bad/", (none : Option AgentCard)),
       ("http://localhost:8002/", some outline_agent_card)]
  exact ⟨h.1, h.2.1 "http://localhost:8001/" title_agent_card (by decide), h.2.2 (by decide)⟩

/-- C7 counterexample: the source guards the exact-match scan with the Python
truthiness test `if requested:`. With the empty string requested and a
directory containing a provider literally named `""` (plus a second
provider), the requested name equals a directory name case-insensitively,
yet the resolver skips the exact rule and falls through to
`(none, "unresolved")` instead of returning that name with reason
`"exact"`. -/
theorem exact_match_empty_requested_cex :
    (("", (⟨⟨"", []⟩, "u0"⟩ : RemoteAgentConnection)) ∈
      ([("", ⟨⟨"", []⟩, "u0"⟩), ("Other", ⟨⟨"Other", []⟩, "u1"⟩)] :
        List (String × RemoteAgentConnection))) ∧
    py_lower "" = py_lower "" ∧
    resolve_agent_name "" ""
        [("", ⟨⟨"", []⟩, "u0"⟩), ("Other", ⟨⟨"Other", []⟩, "u1"⟩)] =
      (none, "unresolved") :=
  ⟨by decide, rfl, rfl⟩

/-- C7 amended: if the requested name is NONEMPTY and matches some directory
name case-insensitively, the resolver returns the first such directory name
with reason `"exact"`, regardless of the task text (so the exact rule takes
precedence over the nickname, heuristic and single-provider rules). -/
theorem exact_match_amended (requested task : String)
    (connections : List (String × RemoteAgentConnection))
    (p : String × RemoteAgentConnection)
    (hreq : requested ≠ "")
    (hfind : (connections.find? fun q => py_lower q.1 = py_lower requested) = some p) :
    resolve_agent_name requested task connections = (some p.1, "exact") := by
  have hne : connections ≠ [] := by
    intro h
    rw [h] at hfind
    simp [List.find?] at hfind
  have hempty : connections.isEmpty = false := by
    cases connections with
    | nil => exact absurd rfl hne
    | cons a l => rfl
  simp [resolve_agent_name, hempty, hreq, hfind]

/-- Witness for the amended C7: a differently-cased request for the title
agent resolves exactly, even though the task text would match the outline
heuristic. -/
theorem exact_match_amended_witness :
    resolve_agent_name "AI FOUNDRY TITLE AGENT" "please make an outline" sample_connections =
      (some "AI Foundry Title Agent", "exact") :=
  exact_match_amended "AI FOUNDRY TITLE AGENT" "please make an outline" sample_connections
    ("AI Foundry Title Agent", ⟨title_agent_card, "http://localhost:8001/"⟩)
    (by decide) (by decide)

/-- C8: with the repository's two providers (skill tags `["title"]` and
`["outline"]`), requesting the literal name `"blogtitlegenerator"` — which
exact-matches neither directory name — resolves via the nickname rule to the
title provider with reason `"nickname:title"`, for every task text. -/
theorem nickname_blogtitlegenerator_resolves_title (task : String) :
    resolve_agent_name "blogtitlegenerator" task sample_connections =
      (some "AI Foundry Title Agent", "nickname:title") := rfl

/-- C9: whenever the directory contains exactly one entry, the resolver
returns that entry's name — for every requested name and every task text,
including empty strings — and the outcome is never `"unresolved"` (each
cascade stage of `resolve_agent_name` can only pick the single entry, and
the single-provider fallback catches everything else). -/
theorem single_entry_always_resolves (requested task name : String)
    (conn : RemoteAgentConnection) :
    (resolve_agent_name requested task [(name, conn)]).1 = some name ∧
    (resolve_agent_name requested task [(name, conn)]).2 ≠ "unresolved" := by
  unfold resolve_agent_name
  simp only [List.isEmpty_cons, Bool.false_eq_true, if_false]
  split
  case _ p hp =>
    have hmem : p ∈ [(name, conn)] := by
      by_cases hreq : requested = ""
      · rw [if_pos hreq] at hp; cases hp
      · rw [if_neg hreq] at hp; exact List.mem_of_find?_eq_some hp
    have hp1 : p.1 = name := by
      have := List.mem_singleton.mp hmem
      rw [this]
    simp [hp1]
  case _ hp =>
    simp only [List.filter_cons, List.filter_nil, List.map]
    by_cases hbt : name_matches_skill conn.card ["title"] = true <;>
      by_cases hbo : name_matches_skill conn.card ["outline"] = true <;>
        simp [hbt, hbo] <;> (repeat' split) <;> simp_all

/-- C10: if the requested name matches no directory name (case-insensitively)
and is none of the fixed nicknames, but the task text contains the substring
`"headline"` case-insensitively and some provider's skills match the keyword
`"title"`, then the resolver returns the FIRST such title-skilled provider
with reason `"heuristic:title"` — the word `"headline"` triggers the title
heuristic although it is not itself a skill keyword. -/
theorem headline_triggers_title_heuristic
    (requested task : String) (connections : List (String × RemoteAgentConnection))
    (m : String)
    (hexact : ∀ p ∈ connections, py_lower p.1 ≠ py_lower requested)
    (hnick1 : py_lower requested ∉ nickname_title_set)
    (hnick2 : py_lower requested ∉ nickname_outline_set)
    (htask : str_contains (py_lower task) "headline" = true)
    (hhead : ((connections.filter fun p => name_matches_skill p.2.card ["title"]).map
        Prod.fst).head? = some m) :
    resolve_agent_name requested task connections = (some m, "heuristic:title") := by
  have hne : connections ≠ [] := by
    intro h
    subst h
    simp [List.filter] at hhead
  have hempty : connections.isEmpty = false := by
    cases connections with
    | nil => exact absurd rfl hne
    | cons a l => rfl
  have hbt_false : ((connections.filter fun p => name_matches_skill p.2.card ["title"]).map
      Prod.fst).isEmpty = false := by
    cases hli : (connections.filter fun p => name_matches_skill p.2.card ["title"]).map
        Prod.fst with
    | nil => rw [hli] at hhead; cases hhead
    | cons a l => rfl
  have hfind : (connections.find? fun p => py_lower p.1 = py_lower requested) = none := by
    rw [List.find?_eq_none]
    intro x hx
    simp [hexact x hx]
  have hscrut : (if requested = "" then none
      else connections.find? fun p => py_lower p.1 = py_lower requested) = none := by
    by_cases hreq : requested = "" <;> simp [hreq, hfind]
  simp [resolve_agent_name, hempty, hscrut, hnick1, hnick2, htask, hbt_false, hhead]

/-- Witness for C10: against the repository's two providers, an unknown
requested name with a task text containing `HEADLINE` resolves to the title
agent with reason `"heuristic:title"`. -/
theorem headline_triggers_title_heuristic_witness :
    resolve_agent_name "totally-unknown" "Write a catchy HEADLINE about React"
        sample_connections = (some "AI Foundry Title Agent", "heuristic:title") :=
  headline_triggers_title_heuristic "totally-unknown" "Write a catchy HEADLINE about React"
    sample_connections "AI Foundry Title Agent"
    (by decide) (by decide) (by decide) (by decide) (by decide)
